import Mathlib

/-!
Verification of the persistence layer of `academia-be` (`src/app/db.py`):
a collection-oriented JSON file store with per-collection locks, a rolling
backup, timestamped backups, and atomic temp-file-then-rename writes.

The embedding models, per collection, the on-disk state (primary file,
rolling `.bak`, timestamped backups directory, transient `.tmp` file) and
the operations `read_json_file`, `write_json_file`, `restore_from_backup`
and `_get_lock`, with explicit fault flags for the I/O errors the code
catches or propagates.
-/

namespace AcademiaDB

/-- A JSON value, as produced by Python's `json.load` on the store's files.
Mapping keys are strings; insertion order of array elements and object
fields is preserved, matching `json` module semantics. -/
inductive Json where
  | null
  | bool (b : Bool)
  | num (n : Int)
  | str (s : String)
  | arr (xs : List Json)
  | obj (fields : List (String × Json))

/-- Python's `isinstance(data, list)` on a parsed JSON value. -/
def Json.isArr : Json → Bool
  | .arr _ => true
  | _ => false

/-- Python's `data if isinstance(data, list) else []` (used on the
self-heal return path of `read_json_file`). -/
def Json.asList : Json → List Json
  | .arr xs => xs
  | _ => []

/-- The content of one on-disk file, at parsing granularity: either bytes
that decode as UTF-8 but fail JSON parsing with `json.JSONDecodeError`
(`corrupt`), or bytes that parse to a JSON value. `json.dump` of a value
yields content parsing back to it. For the rolling backup this granularity
is exact, because its reader catches every exception (`except Exception`
at db.py line 88), so undecodable backup bytes behave like `corrupt`; the
primary file additionally admits undecodable bytes, tracked by the
byte-granularity model `RawContent` below. -/
inductive Content where
  | corrupt
  | json (j : Json)

/-- Per-collection file-system state: the primary `data/X.json`, the
rolling `data/X.json.bak`, the timestamped entries of `data/backups/`
(as an association list from file name to content), and the transient
`data/X.json.tmp`. `none` means the file does not exist. -/
structure FS where
  primary : Option Content
  rolling : Option Content
  backups : List (String × Content)
  temp : Option Content

/-- Fault flags for the exceptions `read_json_file` can encounter:
an `IOError` opening/reading the primary, any exception reading the
rolling backup, and a failure opening the primary for the self-heal
rewrite (all three are caught by the code). -/
structure ReadFaults where
  primaryOpenFails : Bool
  backupOpenFails : Bool
  healWriteFails : Bool

/-- No read-time I/O faults. -/
def noReadFaults : ReadFaults := ⟨false, false, false⟩

/-- The backup-recovery branch of `read_json_file` (its `except` block,
lines 77–92): if a rolling backup exists and parses, rewrite the primary
with the backup's content and return it as a list; on any failure return
the empty list with the state unchanged. -/
def recoverFromBackup (rf : ReadFaults) (fs : FS) : List Json × FS :=
  match fs.rolling with
  | none => ([], fs)
  | some bc =>
    if rf.backupOpenFails then ([], fs)
    else
      match bc with
      | .corrupt => ([], fs)
      | .json bj =>
        if rf.healWriteFails then ([], fs)
        else (bj.asList, { fs with primary := some (.json bj) })

/-- Translation of `read_json_file` (db.py lines 55–92) over decodable
primaries: under the collection's lock, return `[]` for a missing primary;
parse the primary, returning its elements if it is a JSON array and `[]`
if it parses to a non-array; on `JSONDecodeError`/`IOError` fall to the
backup-recovery branch. A primary whose bytes do not decode as UTF-8
raises an exception the function does not catch; that path is modelled by
`read_json_file_bytes` below, which this function agrees with on
decodable primaries (`read_json_file_bytes_agrees`). -/
def read_json_file (rf : ReadFaults) (fs : FS) : List Json × FS :=
  match fs.primary with
  | none => ([], fs)
  | some c =>
    if rf.primaryOpenFails then recoverFromBackup rf fs
    else
      match c with
      | .corrupt => recoverFromBackup rf fs
      | .json j => (if j.isArr then j.asList else [], fs)

/-- Fault flags for the exceptions `write_json_file` can encounter:
failure of the rolling-backup copy, failure of the timestamped-backup
copy (both swallowed), failure writing the temp file, and failure of the
rename (both propagated after temp cleanup). -/
structure WriteFaults where
  rollingCopyFails : Bool
  tsCopyFails : Bool
  tempWriteFails : Bool
  renameFails : Bool

/-- No write-time I/O faults. -/
def noWriteFaults : WriteFaults := ⟨false, false, false, false⟩

/-- The errors `write_json_file` can raise: the `ValueError` for
non-list input, or a propagated I/O exception from the temp-write or
rename step. -/
inductive WriteErr where
  | validation
  | ioError
deriving DecidableEq

/-- Effect of `shutil.copy2(filepath, timestamped_backup)`: writing an entry of the
backups directory, replacing an entry of the same name if present. -/
def updateAssoc (l : List (String × Content)) (k : String) (v : Content) :
    List (String × Content) :=
  match l with
  | [] => [(k, v)]
  | (k', v') :: rest =>
    if k' = k then (k, v) :: rest else (k', v') :: updateAssoc rest k v

/-- Look an entry up in the backups directory by file name. -/
def findBackup : List (String × Content) → String → Option Content
  | [], _ => none
  | (k, v) :: rest, n => if k = n then some v else findBackup rest n

/-- Translation of `_create_timestamped_backup` (db.py lines 48–52): the name of the
timestamped backup file, `<filename>.<YYYYMMDD_HHMMSS>.bak`, placed in
the backups directory. `ts` is `datetime.now().strftime("%Y%m%d_%H%M%S")`. -/
def timestampedBackupName (filename ts : String) : String :=
  filename ++ "." ++ ts ++ ".bak"

/-- The backup stage of `write_json_file` (db.py lines 113–126): if the
primary exists, best-effort copy it to the rolling backup and to a fresh
timestamped backup; either copy's failure is swallowed. -/
def backupStage (wf : WriteFaults) (filename ts : String) (fs : FS) : FS :=
  match fs.primary with
  | none => fs
  | some c =>
    let fs1 := if wf.rollingCopyFails then fs else { fs with rolling := some c }
    if wf.tsCopyFails then fs1
    else { fs1 with
            backups := updateAssoc fs1.backups (timestampedBackupName filename ts) c }

/-- Translation of `write_json_file` (db.py lines 95–145): under the collection's lock,
raise `ValueError` for non-list input without touching disk; otherwise
back up an existing primary (best effort), serialize the data to the
`.tmp` file and atomically rename it over the primary; on an exception
in the temp-write or rename step, delete the temp file and re-raise. -/
def write_json_file (wf : WriteFaults) (filename ts : String) (fs : FS)
    (data : Json) : Except WriteErr Unit × FS :=
  if data.isArr = false then (.error .validation, fs)
  else
    let fs1 := backupStage wf filename ts fs
    if wf.tempWriteFails then (.error .ioError, { fs1 with temp := none })
    else
      let fs2 := { fs1 with temp := some (.json data) }
      if wf.renameFails then (.error .ioError, { fs2 with temp := none })
      else (.ok (), { fs2 with primary := some (.json data), temp := none })

/-- Translation of `restore_from_backup` (db.py lines 147–171): under the collection's
lock, return `False` if the rolling backup is missing; otherwise parse it
(any valid JSON value passes — no array check), overwrite the primary
with it and return `True`; on a parse failure return `False`. -/
def restore_from_backup (fs : FS) : Bool × FS :=
  match fs.rolling with
  | none => (false, fs)
  | some .corrupt => (false, fs)
  | some (.json bj) => (true, { fs with primary := some (.json bj) })

/-- The process-wide lock registry `_file_locks`: an association list
from file path to lock instance (locks identified by allocation number),
plus the allocation counter for fresh locks. -/
structure LockReg where
  locks : List (String × Nat)
  nextId : Nat

/-- Python's `filepath in _file_locks` lookup combined with the
subscript access of the registry dictionary. -/
def lookupLock : List (String × Nat) → String → Option Nat
  | [], _ => none
  | (k, v) :: rest, n => if k = n then some v else lookupLock rest n

/-- Translation of `_get_lock` (db.py lines 30–35): under the registry-wide lock,
create a lock for the path if none exists, then return the registry's lock
for the path. -/
def _get_lock (r : LockReg) (fp : String) : Nat × LockReg :=
  match lookupLock r.locks fp with
  | some l => (l, r)
  | none =>
    (r.nextId, { locks := r.locks ++ [(fp, r.nextId)], nextId := r.nextId + 1 })

/-- Number of registry entries for a given file path. -/
def countKey (l : List (String × Nat)) (n : String) : Nat :=
  (l.filter (fun p => p.1 = n)).length

/-- A collection whose primary holds the one-element array `["a"]`, with
no backups and no temp file. -/
def sampleFS : FS :=
  { primary := some (.json (.arr [.str "a"])), rolling := none,
    backups := [], temp := none }

/-- A brand-new collection: no primary, no backups, no temp file. -/
def emptyFS : FS :=
  { primary := none, rolling := none, backups := [], temp := none }

/-- A collection with a corrupt primary and no rolling backup. -/
def corruptNoBackupFS : FS :=
  { primary := some .corrupt, rolling := none, backups := [], temp := none }

/-- A collection whose primary and rolling backup are both corrupt. -/
def corruptRollFS : FS :=
  { primary := some .corrupt, rolling := some .corrupt,
    backups := [], temp := none }

/-- A collection whose primary parses to a JSON object (valid JSON but
not an array) while a parseable rolling backup holding `["a"]` exists. -/
def nonArrayPrimaryFS : FS :=
  { primary := some (.json (.obj [])),
    rolling := some (.json (.arr [.str "a"])),
    backups := [], temp := none }

/-- A collection with a corrupt primary whose rolling backup parses to a
JSON object (not an array). -/
def objBackupFS : FS :=
  { primary := some .corrupt,
    rolling := some (.json (.obj [("a", .num 1)])),
    backups := [], temp := none }

/-- Raw bytes of the primary file, at decoding granularity: Python opens
the file in text mode with `encoding='utf-8'`, so `json.load` first
decodes the bytes. `invalidUtf8` stands for bytes that are not valid
UTF-8, whose decoding raises `UnicodeDecodeError`; `decoded c` stands for
bytes that decode, with `c` their content at parsing granularity. -/
inductive RawContent where
  | invalidUtf8
  | decoded (c : Content)

/-- Per-collection file-system state with the primary file tracked at
byte granularity (the rolling backup stays at parsing granularity: its
reader catches every exception, so decode errors there act like
`corrupt`). -/
structure RawFS where
  primary : Option RawContent
  rolling : Option Content
  backups : List (String × Content)
  temp : Option Content

/-- The exception a read can let escape: `UnicodeDecodeError` is a
`ValueError`, neither a `json.JSONDecodeError` nor an `OSError`, so the
clause `except (json.JSONDecodeError, IOError)` at db.py line 77 does not
catch it. -/
inductive ReadExn where
  | unicodeDecodeError
deriving DecidableEq

/-- Lifting a parse-granularity state to byte granularity: every primary
content is decodable. -/
def FS.toRaw (fs : FS) : RawFS :=
  { primary := fs.primary.map RawContent.decoded, rolling := fs.rolling,
    backups := fs.backups, temp := fs.temp }

/-- The backup-recovery branch of `read_json_file` over the byte-level
state. All its exceptions are caught (db.py line 88), so it never
raises. -/
def recoverBytes (rf : ReadFaults) (fs : RawFS) :
    Except ReadExn (List Json) × RawFS :=
  match fs.rolling with
  | none => (.ok [], fs)
  | some bc =>
    if rf.backupOpenFails then (.ok [], fs)
    else
      match bc with
      | .corrupt => (.ok [], fs)
      | .json bj =>
        if rf.healWriteFails then (.ok [], fs)
        else (.ok bj.asList,
          { fs with primary := some (.decoded (.json bj)) })

/-- Translation of `read_json_file` (db.py lines 55–92) at byte
granularity: an `IOError` opening the primary is caught and falls to the
backup branch, but once the file is open, `json.load` on invalid-UTF-8
bytes raises `UnicodeDecodeError`, which the `except` clause at line 77
does not catch — the exception propagates to the caller. -/
def read_json_file_bytes (rf : ReadFaults) (fs : RawFS) :
    Except ReadExn (List Json) × RawFS :=
  match fs.primary with
  | none => (.ok [], fs)
  | some rc =>
    if rf.primaryOpenFails then recoverBytes rf fs
    else
      match rc with
      | .invalidUtf8 => (.error .unicodeDecodeError, fs)
      | .decoded .corrupt => recoverBytes rf fs
      | .decoded (.json j) => (.ok (if j.isArr then j.asList else []), fs)

/-- A collection whose primary file holds invalid UTF-8 bytes while a
parseable rolling backup exists. -/
def invalidUtf8FS : RawFS :=
  { primary := some .invalidUtf8,
    rolling := some (.json (.arr [])),
    backups := [], temp := none }

/-- The backup stage never touches the primary file. -/
theorem backupStage_primary (wf : WriteFaults) (fn ts : String) (fs : FS) :
    (backupStage wf fn ts fs).primary = fs.primary := by
  cases h : fs.primary with
  | none => simp [backupStage, h]
  | some c =>
    by_cases h1 : wf.rollingCopyFails = true <;>
      by_cases h2 : wf.tsCopyFails = true <;>
        simp [backupStage, h, h1, h2]

/-- The backup stage never touches the temp file. -/
theorem backupStage_temp (wf : WriteFaults) (fn ts : String) (fs : FS) :
    (backupStage wf fn ts fs).temp = fs.temp := by
  cases h : fs.primary with
  | none => simp [backupStage, h]
  | some c =>
    by_cases h1 : wf.rollingCopyFails = true <;>
      by_cases h2 : wf.tsCopyFails = true <;>
        simp [backupStage, h, h1, h2]

/-- A fault-free write of an array leaves the primary holding exactly
the serialized data. -/
theorem write_ok_primary (fn ts : String) (fs : FS) (xs : List Json) :
    ((write_json_file noWriteFaults fn ts fs (Json.arr xs)).2).primary =
      some (Content.json (Json.arr xs)) := by
  simp [write_json_file, noWriteFaults, Json.isArr]

/-- A fault-free write succeeds on array input. -/
theorem write_ok_result (fn ts : String) (fs : FS) (xs : List Json) :
    (write_json_file noWriteFaults fn ts fs (Json.arr xs)).1 = Except.ok () := by
  simp [write_json_file, noWriteFaults, Json.isArr]

/-- A fault-free write after which the rolling backup and the fresh
timestamped backup both hold the prior primary content. -/
theorem write_ok_backups (fn ts : String) (fs : FS) (xs : List Json)
    (c : Content) (h : fs.primary = some c) :
    ((write_json_file noWriteFaults fn ts fs (Json.arr xs)).2).rolling = some c ∧
    ((write_json_file noWriteFaults fn ts fs (Json.arr xs)).2).backups =
      updateAssoc fs.backups (timestampedBackupName fn ts) c := by
  constructor <;>
    simp [write_json_file, noWriteFaults, Json.isArr, backupStage, h]

/-- Updating the backups directory makes the written entry retrievable. -/
theorem findBackup_updateAssoc (l : List (String × Content)) (k : String)
    (v : Content) : findBackup (updateAssoc l k v) k = some v := by
  induction l with
  | nil => simp [updateAssoc, findBackup]
  | cons p rest ih =>
    obtain ⟨k', v'⟩ := p
    by_cases h : k' = k
    · simp [updateAssoc, findBackup, h]
    · simp [updateAssoc, findBackup, h, ih]

/-- C1: round-trip — any write of a list of records that succeeds leaves the
store so that a subsequent fault-free read returns exactly that list, content
and order preserved. -/
theorem C1_round_trip (wf : WriteFaults) (fn ts : String) (fs : FS)
    (xs : List Json)
    (h : (write_json_file wf fn ts fs (Json.arr xs)).1 = Except.ok ()) :
    (read_json_file noReadFaults
        (write_json_file wf fn ts fs (Json.arr xs)).2).1 = xs := by
  obtain ⟨rc, tc, tw, rn⟩ := wf
  cases tw with
  | false =>
    cases rn with
    | false =>
      simp [write_json_file, read_json_file, noReadFaults, Json.isArr,
        Json.asList]
    | true => simp [write_json_file, Json.isArr] at h
  | true => simp [write_json_file, Json.isArr] at h

/-- C1 witness: writing `["a","b"]` to a fresh collection and reading it
back returns `["a","b"]`. -/
theorem C1_round_trip_witness :
    (read_json_file noReadFaults
        (write_json_file noWriteFaults "students.json" "20260101_120000"
          emptyFS (Json.arr [.str "a", .str "b"])).2).1 =
      [Json.str "a", Json.str "b"] :=
  C1_round_trip noWriteFaults "students.json" "20260101_120000" emptyFS
    [.str "a", .str "b"] rfl

/-- C2: write-failure atomicity — if the temp-file write or the rename step
fails, the write returns the propagated I/O error, the temp file is gone,
and the primary file is exactly what it was before. -/
theorem C2_write_failure_atomicity (wf : WriteFaults) (fn ts : String)
    (fs : FS) (xs : List Json)
    (h : wf.tempWriteFails = true ∨ wf.renameFails = true) :
    (write_json_file wf fn ts fs (Json.arr xs)).1 =
        Except.error WriteErr.ioError ∧
    ((write_json_file wf fn ts fs (Json.arr xs)).2).temp = none ∧
    ((write_json_file wf fn ts fs (Json.arr xs)).2).primary = fs.primary := by
  obtain ⟨rc, tc, tw, rn⟩ := wf
  cases tw with
  | true =>
    refine ⟨?_, ?_, ?_⟩ <;>
      simp [write_json_file, Json.isArr, backupStage_primary]
  | false =>
    cases rn with
    | true =>
      refine ⟨?_, ?_, ?_⟩ <;>
        simp [write_json_file, Json.isArr, backupStage_primary]
    | false => simp at h

/-- C2 witness: a failing rename on a write to a collection holding `["a"]`
propagates the error, removes the temp file and preserves the primary. -/
theorem C2_write_failure_atomicity_witness :
    (write_json_file ⟨false, false, false, true⟩ "students.json"
        "20260101_120000" sampleFS (Json.arr [])).1 =
      Except.error WriteErr.ioError ∧
    ((write_json_file ⟨false, false, false, true⟩ "students.json"
        "20260101_120000" sampleFS (Json.arr [])).2).temp = none ∧
    ((write_json_file ⟨false, false, false, true⟩ "students.json"
        "20260101_120000" sampleFS (Json.arr [])).2).primary =
      sampleFS.primary :=
  C2_write_failure_atomicity ⟨false, false, false, true⟩ "students.json"
    "20260101_120000" sampleFS [] (Or.inr rfl)

/-- C3: corruption self-heal — with a corrupt primary and a rolling backup
parsing to the array `B`, a read returns `B` and rewrites the primary so
that it parses to `B`. -/
theorem C3_corruption_self_heal (fs : FS) (xs : List Json)
    (h1 : fs.primary = some Content.corrupt)
    (h2 : fs.rolling = some (Content.json (Json.arr xs))) :
    read_json_file noReadFaults fs =
      (xs, { fs with primary := some (Content.json (Json.arr xs)) }) := by
  simp [read_json_file, recoverFromBackup, noReadFaults, h1, h2, Json.asList]

/-- C3 witness: a corrupt primary with rolling backup `["a"]` reads as
`["a"]` and the primary is healed to the backup's content. -/
theorem C3_corruption_self_heal_witness :
    read_json_file noReadFaults
        { corruptNoBackupFS with
            rolling := some (Content.json (Json.arr [Json.str "a"])) } =
      ([Json.str "a"],
        { corruptNoBackupFS with
            primary := some (Content.json (Json.arr [Json.str "a"])),
            rolling := some (Content.json (Json.arr [Json.str "a"])) }) :=
  C3_corruption_self_heal
    { corruptNoBackupFS with
        rolling := some (Content.json (Json.arr [Json.str "a"])) }
    [Json.str "a"] rfl rfl

/-- C4 counterexample: with a primary parsing to a JSON object and a
parseable rolling backup `["a"]`, a read returns `[]` and leaves the state
untouched — it does not return the backup data and does not self-heal, so
non-array primaries do not take the corruption path. -/
theorem C4_counterexample :
    (read_json_file noReadFaults nonArrayPrimaryFS).1 = [] ∧
    (read_json_file noReadFaults nonArrayPrimaryFS).2 = nonArrayPrimaryFS ∧
    ([] : List Json) ≠ [Json.str "a"] := by
  refine ⟨rfl, rfl, by simp⟩

/-- C4 (amended): a primary parsing as valid JSON that is not an array
makes a read return the empty list directly, without consulting the backup
and without modifying any file; a well-formed array is returned as is,
whatever its elements. -/
theorem C4_non_array_primary (fs : FS) (j : Json) (xs : List Json) :
    (fs.primary = some (Content.json j) → j.isArr = false →
      read_json_file noReadFaults fs = ([], fs)) ∧
    (fs.primary = some (Content.json (Json.arr xs)) →
      read_json_file noReadFaults fs = (xs, fs)) := by
  constructor
  · intro h1 h2
    simp [read_json_file, noReadFaults, h1, h2]
  · intro h1
    simp [read_json_file, noReadFaults, h1, Json.isArr, Json.asList]

/-- C4 witness: the object-primary state reads as `([], unchanged)`, and a
primary holding the array `["a"]` reads as `(["a"], unchanged)`. -/
theorem C4_non_array_primary_witness :
    read_json_file noReadFaults nonArrayPrimaryFS = ([], nonArrayPrimaryFS) ∧
    read_json_file noReadFaults sampleFS = ([Json.str "a"], sampleFS) :=
  ⟨(C4_non_array_primary nonArrayPrimaryFS (Json.obj []) []).1 rfl rfl,
   (C4_non_array_primary sampleFS Json.null [Json.str "a"]).2 rfl⟩

/-- The backup-recovery branch returns the empty list and an unchanged
state whenever no usable backup exists: the rolling backup is absent,
corrupt, or unreadable. -/
theorem recoverFromBackup_unusable (rf : ReadFaults) (fs : FS)
    (h : fs.rolling = none ∨ fs.rolling = some Content.corrupt ∨
      rf.backupOpenFails = true) :
    recoverFromBackup rf fs = ([], fs) := by
  rcases h with h | h | h
  · simp [recoverFromBackup, h]
  · by_cases hb : rf.backupOpenFails = true <;>
      simp [recoverFromBackup, h, hb]
  · cases hr : fs.rolling with
    | none => simp [recoverFromBackup, hr]
    | some bc => simp [recoverFromBackup, hr, h]

/-- Both caught read paths return the empty list with the state
unchanged: a missing primary, and a parse-failing or unopenable primary
with no usable rolling backup. -/
theorem read_total_on_caught_paths (rf : ReadFaults) (fs : FS) :
    (fs.primary = none → read_json_file rf fs = ([], fs)) ∧
    ((fs.primary = some Content.corrupt ∨ rf.primaryOpenFails = true) →
      (fs.rolling = none ∨ fs.rolling = some Content.corrupt ∨
        rf.backupOpenFails = true) →
      read_json_file rf fs = ([], fs)) := by
  constructor
  · intro h
    simp [read_json_file, h]
  · intro h1 h2
    have hrec := recoverFromBackup_unusable rf fs h2
    cases hp : fs.primary with
    | none => simp [read_json_file, hp]
    | some c =>
      by_cases ho : rf.primaryOpenFails = true
      · simp [read_json_file, hp, ho, hrec]
      · rcases h1 with h1 | h1
        · rw [hp] at h1
          cases h1
          simp [read_json_file, hp, ho, hrec]
        · exact absurd h1 ho

/-- The byte-level backup branch coincides with the parse-level one on
lifted states and never reports an exception. -/
theorem recoverBytes_toRaw (rf : ReadFaults) (fs : FS) :
    recoverBytes rf fs.toRaw =
      (Except.ok (recoverFromBackup rf fs).1,
        ((recoverFromBackup rf fs).2).toRaw) := by
  cases hr : fs.rolling with
  | none => simp [recoverBytes, recoverFromBackup, FS.toRaw, hr]
  | some bc =>
    by_cases hb : rf.backupOpenFails = true
    · simp [recoverBytes, recoverFromBackup, FS.toRaw, hr, hb]
    · cases bc with
      | corrupt => simp [recoverBytes, recoverFromBackup, FS.toRaw, hr, hb]
      | json bj =>
        by_cases hw : rf.healWriteFails = true <;>
          simp [recoverBytes, recoverFromBackup, FS.toRaw, hr, hb, hw]

/-- On a primary whose bytes decode, the byte-level read reports no
exception and agrees with `read_json_file`: the parse-level model is the
restriction of the byte-level one to decodable primaries. -/
theorem read_json_file_bytes_agrees (rf : ReadFaults) (fs : FS) :
    read_json_file_bytes rf fs.toRaw =
      (Except.ok (read_json_file rf fs).1,
        ((read_json_file rf fs).2).toRaw) := by
  obtain ⟨p, rol, bks, tmp⟩ := fs
  have hrec := recoverBytes_toRaw rf ⟨p, rol, bks, tmp⟩
  cases p with
  | none => simp [read_json_file_bytes, read_json_file, FS.toRaw]
  | some c =>
    by_cases ho : rf.primaryOpenFails = true
    · simp [FS.toRaw] at hrec
      simp [read_json_file_bytes, read_json_file, FS.toRaw, ho, hrec]
    · cases c with
      | corrupt =>
        simp [FS.toRaw] at hrec
        simp [read_json_file_bytes, read_json_file, FS.toRaw, ho, hrec]
      | json j =>
        simp [read_json_file_bytes, read_json_file, FS.toRaw, ho]

/-- C5: code-bug evidence — a primary file whose bytes are invalid UTF-8
makes the read propagate `UnicodeDecodeError` with the state unchanged,
even though a parseable rolling backup exists: the clause
`except (json.JSONDecodeError, IOError)` at db.py line 77 does not catch
`UnicodeDecodeError`, contradicting the contract (and the function's own
docstring) that a read never fails and returns a list. -/
theorem C5_read_raises_on_invalid_utf8 :
    read_json_file_bytes noReadFaults invalidUtf8FS =
      (Except.error ReadExn.unicodeDecodeError, invalidUtf8FS) := rfl

/-- C6: write input validation — a write reports the validation error
exactly when the input is not a list, and in that case it returns with the
whole file-system state untouched: primary, rolling backup, timestamped
backups and temp file all unchanged and uncreated. -/
theorem C6_write_validation (wf : WriteFaults) (fn ts : String) (fs : FS)
    (data : Json) :
    ((write_json_file wf fn ts fs data).1 = Except.error WriteErr.validation ↔
      data.isArr = false) ∧
    (data.isArr = false →
      write_json_file wf fn ts fs data = (Except.error WriteErr.validation, fs)) := by
  by_cases h : data.isArr = false
  · exact ⟨by simp [write_json_file, h], fun _ => by simp [write_json_file, h]⟩
  · constructor
    · by_cases h1 : wf.tempWriteFails = true <;>
        by_cases h2 : wf.renameFails = true <;>
          simp [write_json_file, h, h1, h2]
    · intro hc
      exact absurd hc h

/-- C6 witness: writing a bare JSON object (a single mapping, not a list)
is rejected with the validation error and the state is returned intact. -/
theorem C6_write_validation_witness :
    write_json_file noWriteFaults "students.json" "20260101_120000" sampleFS
        (Json.obj []) =
      (Except.error WriteErr.validation, sampleFS) :=
  (C6_write_validation noWriteFaults "students.json" "20260101_120000"
      sampleFS (Json.obj [])).2 rfl

/-- C7: backup freshness — after a fault-free write of `R1` followed by a
fault-free write of `R2`, the rolling backup holds the serialized `R1` and
the backups directory holds a fresh timestamped entry, named
`<collection>.<timestamp>.bak`, whose content is the serialized `R1`. -/
theorem C7_backup_freshness (fn ts1 ts2 : String) (fs : FS)
    (xs1 xs2 : List Json) :
    ((write_json_file noWriteFaults fn ts2
        (write_json_file noWriteFaults fn ts1 fs (Json.arr xs1)).2
        (Json.arr xs2)).2).rolling = some (Content.json (Json.arr xs1)) ∧
    findBackup
      ((write_json_file noWriteFaults fn ts2
          (write_json_file noWriteFaults fn ts1 fs (Json.arr xs1)).2
          (Json.arr xs2)).2).backups
      (timestampedBackupName fn ts2) = some (Content.json (Json.arr xs1)) := by
  have h1 := write_ok_primary fn ts1 fs xs1
  have h2 := write_ok_backups fn ts2
    (write_json_file noWriteFaults fn ts1 fs (Json.arr xs1)).2 xs2
    (Content.json (Json.arr xs1)) h1
  exact ⟨h2.1, by rw [h2.2]; exact findBackup_updateAssoc _ _ _⟩

/-- C8: restore contract — restoring returns failure with the primary
untouched when the rolling backup is missing or unparseable, and returns
success with the primary overwritten by the backup's parsed content when
the backup parses as valid JSON; it never raises (it is a total function
into booleans). -/
theorem C8_restore_contract (fs : FS) :
    (fs.rolling = none → restore_from_backup fs = (false, fs)) ∧
    (fs.rolling = some Content.corrupt →
      restore_from_backup fs = (false, fs)) ∧
    (∀ j, fs.rolling = some (Content.json j) →
      restore_from_backup fs =
        (true, { fs with primary := some (Content.json j) })) := by
  refine ⟨fun h => ?_, fun h => ?_, fun j h => ?_⟩ <;>
    simp [restore_from_backup, h]

/-- C8 witness: restore fails on a missing backup and on a corrupt backup,
leaving the state intact, and succeeds on a parseable backup, overwriting
the primary with it. -/
theorem C8_restore_contract_witness :
    restore_from_backup emptyFS = (false, emptyFS) ∧
    restore_from_backup corruptRollFS = (false, corruptRollFS) ∧
    restore_from_backup nonArrayPrimaryFS =
      (true, { nonArrayPrimaryFS with
                primary := some (Content.json (Json.arr [Json.str "a"])) }) :=
  ⟨(C8_restore_contract emptyFS).1 rfl,
   (C8_restore_contract corruptRollFS).2.1 rfl,
   (C8_restore_contract nonArrayPrimaryFS).2.2
     (Json.arr [Json.str "a"]) rfl⟩

/-- Appending a fresh entry for a path absent from the registry makes it
the path's registered lock. -/
theorem lookupLock_append_none (l : List (String × Nat)) (fp : String)
    (v : Nat) (h : lookupLock l fp = none) :
    lookupLock (l ++ [(fp, v)]) fp = some v := by
  induction l with
  | nil => simp [lookupLock]
  | cons p rest ih =>
    obtain ⟨k, w⟩ := p
    by_cases hk : k = fp
    · simp [lookupLock, hk] at h
    · simp [lookupLock, hk] at h ⊢
      exact ih h

/-- A path absent from the registry has no entry at all. -/
theorem countKey_of_lookupLock_none (l : List (String × Nat)) (fp : String)
    (h : lookupLock l fp = none) : countKey l fp = 0 := by
  induction l with
  | nil => simp [countKey]
  | cons p rest ih =>
    obtain ⟨k, w⟩ := p
    by_cases hk : k = fp
    · simp [lookupLock, hk] at h
    · simp [lookupLock, hk] at h
      simp [countKey, List.filter] at ih ⊢
      simp [hk]
      exact ih h

/-- Appending one entry to the registry adds one to the count of its own
key and leaves every other count unchanged. -/
theorem countKey_append (l : List (String × Nat)) (k n : String) (v : Nat) :
    countKey (l ++ [(k, v)]) n = countKey l n + (if k = n then 1 else 0) := by
  by_cases hk : k = n <;> simp [countKey, List.filter_append, hk]

/-- C9: lock uniqueness — resolving a name a second time returns the very
lock and registry produced the first time; a name that already has an
entry is returned as is, never replaced; and resolving any name keeps the
registry holding at most one lock per name. -/
theorem C9_lock_uniqueness (r : LockReg) (fp : String) :
    (_get_lock (_get_lock r fp).2 fp =
      ((_get_lock r fp).1, (_get_lock r fp).2)) ∧
    (∀ l, lookupLock r.locks fp = some l → _get_lock r fp = (l, r)) ∧
    (∀ n, countKey r.locks n ≤ 1 →
      countKey ((_get_lock r fp).2).locks n ≤ 1) := by
  cases h : lookupLock r.locks fp with
  | some l =>
    refine ⟨?_, ?_, ?_⟩
    · simp [_get_lock, h]
    · intro l' hl'
      cases hl'
      simp [_get_lock, h]
    · intro n hn
      simp [_get_lock, h]
      exact hn
  | none =>
    refine ⟨?_, ?_, ?_⟩
    · simp only [_get_lock, h]
      simp [lookupLock_append_none r.locks fp r.nextId h]
    · intro l' hl'
      exact absurd hl' (by simp)
    · intro n hn
      simp only [_get_lock, h]
      rw [countKey_append]
      by_cases hk : fp = n
      · subst hk
        have h0 := countKey_of_lookupLock_none r.locks fp h
        simp [h0]
      · simp [hk]
        exact hn

/-- C9 witness: on a registry holding one lock for one path, the witness
instantiates all three conjuncts at concrete inputs. -/
theorem C9_lock_uniqueness_witness :
    (_get_lock (_get_lock ⟨[("a", 0)], 1⟩ "b").2 "b" =
      ((_get_lock ⟨[("a", 0)], 1⟩ "b").1,
        (_get_lock ⟨[("a", 0)], 1⟩ "b").2)) ∧
    (_get_lock ⟨[("a", 0)], 1⟩ "a" = (0, ⟨[("a", 0)], 1⟩)) ∧
    (countKey ((_get_lock ⟨[("a", 0)], 1⟩ "b").2).locks "b" ≤ 1) :=
  ⟨(C9_lock_uniqueness ⟨[("a", 0)], 1⟩ "b").1,
   (C9_lock_uniqueness ⟨[("a", 0)], 1⟩ "a").2.1 0 (by simp [lookupLock]),
   (C9_lock_uniqueness ⟨[("a", 0)], 1⟩ "b").2.2 "b" (by simp [countKey])⟩

/-- C10: restore performs no array-shape check — when the rolling backup
parses to any non-array JSON value, restore still overwrites the primary
with that value and reports success, and a subsequent fault-free read of
the collection returns the empty list. -/
theorem C10_restore_no_array_check (fs : FS) (j : Json)
    (h1 : fs.rolling = some (Content.json j)) (h2 : j.isArr = false) :
    restore_from_backup fs =
      (true, { fs with primary := some (Content.json j) }) ∧
    (read_json_file noReadFaults
        { fs with primary := some (Content.json j) }).1 = [] := by
  constructor
  · simp [restore_from_backup, h1]
  · simp [read_json_file, noReadFaults, h2]

/-- C10 witness: restoring a collection whose rolling backup parses to the
object `{"a": 1}` succeeds and overwrites the primary with it, after which
a read returns the empty list. -/
theorem C10_restore_no_array_check_witness :
    restore_from_backup objBackupFS =
      (true, { objBackupFS with
                primary := some (Content.json (Json.obj [("a", Json.num 1)])) }) ∧
    (read_json_file noReadFaults
        { objBackupFS with
            primary := some (Content.json (Json.obj [("a", Json.num 1)])) }).1 =
      [] :=
  C10_restore_no_array_check objBackupFS (Json.obj [("a", Json.num 1)])
    rfl rfl

end AcademiaDB
